import Mathlib

/-!
Shallow embedding of the review lifecycle core of the yvr-water-fountains
repository: the supabase core schema (reviews and fountains tables with their
check constraints, row level security insert policies, and the three derived
views), the browser data-access helpers (AppApi), the public review form, the
admin review form, the moderation dashboard, the map data loader with its
module-level cache, and the legacy netlify moderation handler.

Timestamps and dates are modelled as natural numbers (seconds since epoch); a
date value stands for the midnight instant of that day, so the cast from date
to timestamptz is the identity and appending T12:00:00Z to a date adds a fixed
noon offset.  Uuid identifiers are modelled as strings.
-/

namespace WaterFountains

/-- A point in time, seconds since the epoch. -/
abbrev Timestamp := Nat

/-- A calendar date, modelled as the timestamp of its midnight instant. -/
abbrev DateVal := Nat

/-- Review status enumeration, from the check constraint on reviews.status in
supabase/migrations/20241015120000_core_schema.sql. -/
inductive Status where
  | pending
  | approved
  | rejected
deriving DecidableEq

/-- Author type enumeration, from the check constraint on reviews.author_type. -/
inductive AuthorType where
  | publicAuthor
  | adminAuthor
deriving DecidableEq

/-- Fountain operational status enumeration, from the check constraint on
fountains.operational_status. -/
inductive OperationalStatus where
  | operational
  | seasonal
  | closed
  | unknownStatus
deriving DecidableEq

/-- Pet friendliness tri-state, from the check constraint on
fountains.pet_friendly. -/
inductive PetFriendly where
  | yes
  | no
  | unknownPet
deriving DecidableEq

/-- A row of public.reviews from the core schema migration.  Columns follow the
table definition; numeric(4,1) rating columns are modelled as rationals. -/
structure Review where
  id : String
  fountain_id : String
  author_type : AuthorType
  status : Status
  rating : Option ℚ
  water_quality : Option ℚ
  flow_pressure : Option ℚ
  temperature : Option ℚ
  cleanliness : Option ℚ
  accessibility : Option ℚ
  review_text : Option String
  reviewer_name : Option String
  reviewer_email : Option String
  instagram_url : Option String
  instagram_image_url : Option String
  instagram_caption : Option String
  visit_date : Option DateVal
  reviewed_at : Option Timestamp
  approved_by : Option String
  created_at : Timestamp
deriving DecidableEq

/-- A row of public.cities (only the columns the overview view reads). -/
structure City where
  id : String
  name : String
deriving DecidableEq

/-- A row of public.sources (only the columns the overview view reads). -/
structure Source where
  id : String
  name : String
deriving DecidableEq

/-- A row of public.fountains from the core schema migration. -/
structure Fountain where
  id : String
  external_id : Option String
  city_id : Option String
  source_id : Option String
  name : String
  neighbourhood : Option String
  location_description : Option String
  latitude : ℚ
  longitude : ℚ
  operational_status : OperationalStatus
  season_note : Option String
  pet_friendly : PetFriendly
  has_bottle_filler : Option Bool
  is_wheelchair_accessible : Option Bool
  last_verified_at : Option DateVal
  created_at : Timestamp
  updated_at : Timestamp
deriving DecidableEq

/-- The persisted state: the four record sets of the core schema. -/
structure DB where
  cities : List City
  sources : List Source
  fountains : List Fountain
  reviews : List Review
deriving DecidableEq

/-- The check constraint shared by all six rating columns of public.reviews:
the column is null, or the value lies between 0 and 10. -/
def ratingInBounds (v : Option ℚ) : Bool :=
  match v with
  | none => true
  | some q => decide (0 ≤ q) && decide (q ≤ 10)

/-- Conjunction of the rating check constraints on a public.reviews row.  The
status and author_type check constraints hold by typing in this embedding. -/
def checkConstraints (r : Review) : Bool :=
  ratingInBounds r.rating && ratingInBounds r.water_quality &&
  ratingInBounds r.flow_pressure && ratingInBounds r.temperature &&
  ratingInBounds r.cleanliness && ratingInBounds r.accessibility

/-- The row level security check applied to an insert into public.reviews.
The two permissive insert policies are disjoined, as postgres does:
reviews_public_insert checks status = pending and author_type = public, and
reviews_admin_insert checks is_admin().  Neither policy inspects the
instagram columns. -/
def insertAllowed (isAdmin : Bool) (r : Review) : Bool :=
  (r.status == Status.pending && r.author_type == AuthorType.publicAuthor)
    || isAdmin

/-- An insert into public.reviews succeeds when the fountain_id foreign key
references a stored fountain, the row passes the check constraints, and the
row level security insert check admits it. -/
def insertReview (db : DB) (isAdmin : Bool) (r : Review) : Option DB :=
  if db.fountains.any (fun f => f.id == r.fountain_id) &&
      checkConstraints r && insertAllowed isAdmin r then
    some { db with reviews := db.reviews ++ [r] }
  else
    none

/-- The rows of public.reviews joined for a fountain by the aggregate views:
reviews of that fountain with status approved. -/
def approvedFor (reviews : List Review) (fid : String) : List Review :=
  reviews.filter (fun r => r.fountain_id == fid && r.status == Status.approved)

/-- Postgres round(x, 2) on numeric: round half away from zero to two decimal
places. -/
def pgRound2 (q : ℚ) : ℚ :=
  if q < 0 then -((⌊(-q) * 100 + 1/2⌋ : ℚ) / 100)
  else ((⌊q * 100 + 1/2⌋ : ℚ) / 100)

/-- The non-null overall ratings among the approved reviews of a fountain:
sql avg skips null inputs. -/
def approvedRatings (reviews : List Review) (fid : String) : List ℚ :=
  (approvedFor reviews fid).filterMap (fun r => r.rating)

/-- The average_rating column of fountain_ratings_view:
round(avg(r.rating)::numeric, 2) over the approved join, null when the join
is empty or every joined rating is null. -/
def averageRating (reviews : List Review) (fid : String) : Option ℚ :=
  let rs := approvedRatings reviews fid
  if rs.isEmpty then none
  else some (pgRound2 (rs.sum / (rs.length : ℚ)))

/-- The approved_review_count column of fountain_ratings_view. -/
def approvedReviewCount (reviews : List Review) (fid : String) : Nat :=
  (approvedFor reviews fid).length

/-- The admin_review_count column of fountain_ratings_view. -/
def adminReviewCount (reviews : List Review) (fid : String) : Nat :=
  ((approvedFor reviews fid).filter
    (fun r => r.author_type == AuthorType.adminAuthor)).length

/-- The sort key of fountain_latest_review_view:
coalesce(reviewed_at, visit_date::timestamptz, created_at). -/
def latestKey (r : Review) : Timestamp :=
  match r.reviewed_at with
  | some t => t
  | none =>
    match r.visit_date with
    | some d => d
    | none => r.created_at

/-- The possible results of the lateral subquery of fountain_latest_review_view
(order by the coalesce key descending, limit 1): the approved reviews of the
fountain whose key is maximal.  The view orders by that single key, so when
several rows tie the returned row is whichever of these candidates the engine
yields first; the embedding keeps the whole candidate set. -/
def latestCandidates (reviews : List Review) (fid : String) : List Review :=
  let approved := approvedFor reviews fid
  approved.filter
    (fun r => approved.all (fun s => decide (latestKey s ≤ latestKey r)))

/-- A row of fountain_overview_view: every column of the fountain, the joined
city and source names, the three aggregate columns of fountain_ratings_view,
and the lateral latest-review columns.  Because the lateral subquery does not
determine a unique row when keys tie, the embedding carries the whole
candidate set in the latest field. -/
structure OverviewRow where
  id : String
  external_id : Option String
  name : String
  neighbourhood : Option String
  location_description : Option String
  latitude : ℚ
  longitude : ℚ
  operational_status : OperationalStatus
  season_note : Option String
  pet_friendly : PetFriendly
  has_bottle_filler : Option Bool
  is_wheelchair_accessible : Option Bool
  last_verified_at : Option DateVal
  city_name : Option String
  source_name : Option String
  average_rating : Option ℚ
  approved_review_count : Nat
  admin_review_count : Nat
  latest : List Review
deriving DecidableEq

/-- The left join of fountains to cities on city_id, projected to the name. -/
def lookupCityName (cities : List City) (cid : Option String) : Option String :=
  match cid with
  | none => none
  | some c => (cities.find? (fun x => x.id == c)).map (fun x => x.name)

/-- The left join of fountains to sources on source_id, projected to the name. -/
def lookupSourceName (sources : List Source) (sid : Option String) : Option String :=
  match sid with
  | none => none
  | some s => (sources.find? (fun x => x.id == s)).map (fun x => x.name)

/-- One row of fountain_overview_view for a given fountain. -/
def overviewRow (db : DB) (f : Fountain) : OverviewRow :=
  { id := f.id
    external_id := f.external_id
    name := f.name
    neighbourhood := f.neighbourhood
    location_description := f.location_description
    latitude := f.latitude
    longitude := f.longitude
    operational_status := f.operational_status
    season_note := f.season_note
    pet_friendly := f.pet_friendly
    has_bottle_filler := f.has_bottle_filler
    is_wheelchair_accessible := f.is_wheelchair_accessible
    last_verified_at := f.last_verified_at
    city_name := lookupCityName db.cities f.city_id
    source_name := lookupSourceName db.sources f.source_id
    average_rating := averageRating db.reviews f.id
    approved_review_count := approvedReviewCount db.reviews f.id
    admin_review_count := adminReviewCount db.reviews f.id
    latest := latestCandidates db.reviews f.id }

/-- fountain_overview_view: one row per fountain of the store; the view has no
where clause, so no fountain is filtered out. -/
def fountain_overview_view (db : DB) : List OverviewRow :=
  db.fountains.map (overviewRow db)

/-- Name order on overview rows, the order clause of fetchFountainOverview. -/
def nameLe (a b : OverviewRow) : Prop := a.name ≤ b.name

instance : DecidableRel nameLe :=
  fun a b => inferInstanceAs (Decidable (a.name ≤ b.name))

instance : IsTotal OverviewRow nameLe :=
  ⟨fun a b => le_total a.name b.name⟩

instance : IsTrans OverviewRow nameLe :=
  ⟨fun _ _ _ hab hbc => le_trans hab hbc⟩

/-- AppApi.fetchFountainOverview: selects every row of fountain_overview_view
ordered by name ascending. -/
def fetchFountainOverview (db : DB) : List OverviewRow :=
  List.insertionSort nameLe (fountain_overview_view db)

/-- The module-level cache of the map data loader: cache.geojson starts null
and keeps the first fetched dataset.  The geojson feature construction is a
per-row reshaping of the overview rows, so the embedding caches the rows
themselves. -/
structure GeoCache where
  geojson : Option (List OverviewRow)
deriving DecidableEq

/-- loadFromSupabase: reads fountain_overview_view ordered by name and turns
the rows into geojson features (the reshaping is kept as the row list). -/
def loadFromSupabase (db : DB) : List OverviewRow :=
  fetchFountainOverview db

/-- fetchGeoData: serves the cached dataset when one is present, otherwise
fetches from the store and fills the cache.  Returns the served dataset and
the cache as left afterwards. -/
def fetchGeoData (cache : GeoCache) (db : DB) : List OverviewRow × GeoCache :=
  match cache.geojson with
  | some g => (g, cache)
  | none =>
    let g := loadFromSupabase db
    (g, { geojson := some g })

/-- The update payload built by the moderation dashboard: a status, and
optionally a reviewed_at value; none means the key is absent from the payload
so the column keeps its stored value. -/
structure UpdatePayload where
  status : Status
  reviewed_at : Option Timestamp
deriving DecidableEq

/-- Applying an update payload to a stored review row: the status column is
overwritten, reviewed_at only when present in the payload; every other
column, approved_by included, keeps its stored value. -/
def applyUpdate (p : UpdatePayload) (r : Review) : Review :=
  { r with
    status := p.status
    reviewed_at :=
      match p.reviewed_at with
      | some t => some t
      | none => r.reviewed_at }

/-- AppApi.updateReviewStatus: updates the rows matching the id with the
payload.  The filter is on id alone; the stored status is not consulted. -/
def updateReviewStatus (reviews : List Review) (reviewId : String)
    (p : UpdatePayload) : List Review :=
  reviews.map (fun r => if r.id == reviewId then applyUpdate p r else r)

/-- The payload the moderation dashboard passes to updateReviewStatus: on
approval the payload carries reviewed_at = now, otherwise only the status. -/
def dashboardPayload (status : Status) (now : Timestamp) : UpdatePayload :=
  { status := status
    reviewed_at := if status == Status.approved then some now else none }

/-- The moderation dashboard updateReviewStatus handler: builds the payload
and applies it through AppApi.updateReviewStatus. -/
def dashboardModerate (reviews : List Review) (reviewId : String)
    (status : Status) (now : Timestamp) : List Review :=
  updateReviewStatus reviews reviewId (dashboardPayload status now)

/-- AppApi.countReviewsByStatus builds a query filtered on status equality,
adding reviewed_at gte since when a since option is supplied.  A null
reviewed_at fails an sql gte comparison. -/
def sqlGte (v : Option Timestamp) (bound : Timestamp) : Bool :=
  match v with
  | none => false
  | some t => decide (bound ≤ t)

/-- AppApi.countReviewsByStatus: the count of the rows passing the filters. -/
def countReviewsByStatus (reviews : List Review) (status : Status)
    (since : Option Timestamp) : Nat :=
  let base := reviews.filter (fun r => r.status == status)
  let filtered :=
    match since with
    | none => base
    | some t => base.filter (fun r => sqlGte r.reviewed_at t)
  filtered.length

/-- The public review form data as read by getFormData on the review page.
Text inputs are strings; the date input and the rating widgets are modelled
post-parse as optional values, none standing for an empty input (toNumeric
maps an empty rating input to null). -/
structure PublicReviewForm where
  fountainId : String
  supabaseFountainId : String
  reviewerName : String
  reviewerEmail : String
  visitDate : Option DateVal
  overallRating : Option ℚ
  waterQuality : Option ℚ
  flowPressure : Option ℚ
  temperature : Option ℚ
  cleanliness : Option ℚ
  accessibility : Option ℚ
  additionalNotes : String
deriving DecidableEq

/-- Javascript string trim: strip leading and trailing whitespace. -/
def trimString (s : String) : String :=
  String.mk
    (((s.data.dropWhile Char.isWhitespace).reverse.dropWhile
      Char.isWhitespace).reverse)

/-- getFormData trims the text fields as it reads them from the page. -/
def getFormData (raw : PublicReviewForm) : PublicReviewForm :=
  { raw with
    fountainId := trimString raw.fountainId
    supabaseFountainId := trimString raw.supabaseFountainId
    reviewerName := trimString raw.reviewerName
    reviewerEmail := trimString raw.reviewerEmail
    additionalNotes := trimString raw.additionalNotes }

/-- validateForm on the public review page: requires a selected fountain, a
reviewer name, a visit date and an overall rating; no other check is made. -/
def validateForm (d : PublicReviewForm) : Bool :=
  !(d.fountainId == "" || d.supabaseFountainId == "") &&
  !(d.reviewerName == "") &&
  d.visitDate.isSome &&
  d.overallRating.isSome

/-- Javascript falsy-to-null coercion for optional text payload fields. -/
def strOpt (s : String) : Option String :=
  if s == "" then none else some s

/-- The row built by submitReview on the public review page.  The payload
object carries no instagram keys and no reviewed_at or approved_by keys, so
those columns take their null defaults; id and created_at take their
database defaults, passed here explicitly. -/
def submitReviewPayload (d : PublicReviewForm) (newId : String)
    (now : Timestamp) : Review :=
  { id := newId
    fountain_id := d.supabaseFountainId
    author_type := AuthorType.publicAuthor
    status := Status.pending
    rating := d.overallRating
    water_quality := d.waterQuality
    flow_pressure := d.flowPressure
    temperature := d.temperature
    cleanliness := d.cleanliness
    accessibility := d.accessibility
    review_text := strOpt d.additionalNotes
    reviewer_name := some d.reviewerName
    reviewer_email := strOpt d.reviewerEmail
    instagram_url := none
    instagram_image_url := none
    instagram_caption := none
    visit_date := d.visitDate
    reviewed_at := none
    approved_by := none
    created_at := now }

/-- The admin review form data as read on the admin page; same modelling
conventions as the public form. -/
structure AdminReviewForm where
  instagramUrl : String
  instagramCaption : String
  overallRating : Option ℚ
  waterQuality : Option ℚ
  flowPressure : Option ℚ
  temperature : Option ℚ
  drainage : Option ℚ
  accessibility : Option ℚ
  reviewNotes : String
  visitDate : Option DateVal
deriving DecidableEq

/-- validateAdminForm: returns the first applicable error message, or none
when the form passes. -/
def validateAdminForm (d : AdminReviewForm) : Option String :=
  if d.instagramUrl == "" then
    some "add the instagram post url so visitors can see the source."
  else if d.overallRating.isNone then
    some "provide an overall rating on the 1-10 scale."
  else if d.waterQuality.isNone || d.flowPressure.isNone ||
      d.temperature.isNone || d.drainage.isNone || d.accessibility.isNone then
    some "fill in all rating categories before publishing the review."
  else if d.visitDate.isNone then
    some "include the visit date for proper context."
  else
    none

/-- Left-to-right scan for the post-segment pattern: at each position, match
a /p/ prefix followed by a non-empty run of non-slash characters and a
closing slash, capturing the run; on failure resume the scan one character
further, as the regex engine does. -/
def scanPostId : List Char → Option String
  | [] => none
  | '/' :: 'p' :: '/' :: rest =>
    let seg := rest.takeWhile (fun x => x != '/')
    if !seg.isEmpty && (rest.drop seg.length).head? == some '/' then
      some (String.mk seg)
    else scanPostId ('p' :: '/' :: rest)
  | _ :: cs => scanPostId cs

/-- The capture group of the pattern matching a /p/ post segment in an
instagram url: the first non-empty run between /p/ and a following slash. -/
def instagramPostId (url : String) : Option String :=
  scanPostId url.data

/-- buildInstagramImageUrl on the admin page: null for an empty url or when
the post pattern is absent, otherwise the media url for the post id. -/
def buildInstagramImageUrl (url : String) : Option String :=
  if url == "" then none
  else
    match instagramPostId url with
    | none => none
    | some postId =>
      some ("https://instagram.com/p/" ++ postId ++ "/media/?size=l")

/-- The number of seconds between a date value (its midnight instant) and the
timestamp written as that date with T12:00:00Z appended. -/
def noonOffset : Timestamp := 43200

/-- The row built by submitAdminReview on the admin page.  The payload sets
author_type admin and status approved; reviewed_at is noon of the visit date
when one is given, otherwise the current time; the payload carries no
approved_by key, so that column takes its null default. -/
def submitAdminReviewPayload (fountainId : String) (d : AdminReviewForm)
    (newId : String) (now : Timestamp) : Review :=
  { id := newId
    fountain_id := fountainId
    author_type := AuthorType.adminAuthor
    status := Status.approved
    rating := d.overallRating
    water_quality := d.waterQuality
    flow_pressure := d.flowPressure
    temperature := d.temperature
    cleanliness := d.drainage
    accessibility := d.accessibility
    review_text := strOpt d.reviewNotes
    reviewer_name := none
    reviewer_email := none
    instagram_url := some d.instagramUrl
    instagram_image_url := buildInstagramImageUrl d.instagramUrl
    instagram_caption := strOpt d.instagramCaption
    visit_date := d.visitDate
    reviewed_at :=
      some (match d.visitDate with
        | some dd => dd + noonOffset
        | none => now)
    approved_by := none
    created_at := now }

/-- A row of the legacy ratings table as touched by the netlify moderation
handler (only the columns the handler writes). -/
structure RatingRow where
  id : String
  review_status : Status
  approved_by : Option String
  approved_at : Option Timestamp
deriving DecidableEq

/-- The action whitelist of the netlify moderation handler. -/
def handlerValidAction (action : String) : Bool :=
  action == "approve" || action == "reject" || action == "pending"

/-- The status the netlify moderation handler writes for an action. -/
def handlerNewStatus (action : String) : Status :=
  if action == "approve" then Status.approved
  else if action == "reject" then Status.rejected
  else Status.pending

/-- The column updates the netlify moderation handler applies to the matching
row: the mapped status, and approved_by and approved_at set on approval and
nulled otherwise.  The stored status is not consulted. -/
def handlerUpdateRow (action : String) (now : Timestamp)
    (row : RatingRow) : RatingRow :=
  { row with
    review_status := handlerNewStatus action
    approved_by := if action == "approve" then some "admin" else none
    approved_at := if action == "approve" then some now else none }

/-- The core of the netlify moderation handler after its auth checks: reject
an action outside the whitelist, otherwise update the rows matching the
rating id unconditionally. -/
def handlerTransition (rows : List RatingRow) (ratingId : String)
    (action : String) (now : Timestamp) : Option (List RatingRow) :=
  if handlerValidAction action then
    some (rows.map (fun r =>
      if r.id == ratingId then handlerUpdateRow action now r else r))
  else
    none

/-! Concrete fixtures shared by the counterexamples and witnesses. -/

/-- A neutral pending public review row used as the base of concrete rows. -/
def baseReview : Review :=
  { id := "r0"
    fountain_id := "f1"
    author_type := AuthorType.publicAuthor
    status := Status.pending
    rating := none
    water_quality := none
    flow_pressure := none
    temperature := none
    cleanliness := none
    accessibility := none
    review_text := none
    reviewer_name := none
    reviewer_email := none
    instagram_url := none
    instagram_image_url := none
    instagram_caption := none
    visit_date := none
    reviewed_at := none
    approved_by := none
    created_at := 0 }

/-- A neutral fountain row used as the base of concrete rows. -/
def baseFountain : Fountain :=
  { id := "f1"
    external_id := none
    city_id := none
    source_id := none
    name := "Alpha"
    neighbourhood := none
    location_description := none
    latitude := 49
    longitude := -123
    operational_status := OperationalStatus.operational
    season_note := none
    pet_friendly := PetFriendly.unknownPet
    has_bottle_filler := none
    is_wheelchair_accessible := none
    last_verified_at := none
    created_at := 0
    updated_at := 0 }

/-- A review already moderated to approved, used to probe the transition
guard. -/
def approvedReview : Review :=
  { baseReview with id := "r1", status := Status.approved, reviewed_at := some 100 }

/-- A legacy ratings row already rejected. -/
def rejectedRating : RatingRow :=
  { id := "g1", review_status := Status.rejected, approved_by := none, approved_at := none }

/-! ## C10 -/

/-- C10: countReviewsByStatus with a since bound counts exactly the reviews of
the requested status whose reviewed_at is non-null and at least the bound.
Reviews that were never moderated fail the sql gte comparison even when their
status matches, so dropping every null-reviewed_at row beforehand leaves the
count unchanged. -/
theorem c10_count_since (reviews : List Review) (s : Status) (t : Timestamp) :
    countReviewsByStatus reviews s (some t) =
      (reviews.filter (fun r =>
        r.status == s &&
          match r.reviewed_at with
          | some u => decide (t ≤ u)
          | none => false)).length ∧
    countReviewsByStatus reviews s (some t) =
      countReviewsByStatus (reviews.filter (fun r => r.reviewed_at.isSome)) s
        (some t) := by
  constructor
  · show ((reviews.filter _).filter _).length = _
    rw [List.filter_filter]
    congr 1
    apply List.filter_congr
    intro r _
    cases hr : r.reviewed_at <;> simp [sqlGte, hr, Bool.and_comm]
  · show ((reviews.filter _).filter _).length
      = (((reviews.filter _).filter _).filter _).length
    rw [List.filter_filter, List.filter_filter, List.filter_filter]
    congr 1
    apply List.filter_congr
    intro r _
    cases hr : r.reviewed_at <;> simp [sqlGte, hr]

/-! ## C1 -/

/-- C1 counterexample: the claim requires a transition call on a review whose
current status is not pending to fail with InvalidTransition and leave the
review unchanged.  In the code, moderating the already approved review r1 to
rejected succeeds and overwrites the status, and the legacy handler likewise
accepts action approve on an already rejected rating row (and even action
pending), writing the new status unconditionally. -/
theorem c1_counterexample :
    (dashboardModerate [approvedReview] "r1" Status.rejected 200).map
        (fun r => r.status) = [Status.rejected] ∧
    handlerTransition [rejectedRating] "g1" "approve" 300 =
      some [{ id := "g1", review_status := Status.approved,
              approved_by := some "admin", approved_at := some 300 }] ∧
    handlerTransition [rejectedRating] "g1" "pending" 300 =
      some [{ id := "g1", review_status := Status.pending,
              approved_by := none, approved_at := none }] := by
  refine ⟨rfl, rfl, rfl⟩

/-- C1 amended: neither transition path checks the stored status.  The
AppApi.updateReviewStatus call filters on id alone and writes the payload
status over whatever status the row currently has, and the legacy netlify
handler accepts any whitelisted action (approve, reject, pending) and writes
the mapped status over the matching row unconditionally; no InvalidTransition
outcome exists and no write is conditioned on the expected prior status. -/
theorem c1_transition_unconditional :
    (∀ (reviews : List Review) (reviewId : String) (p : UpdatePayload)
        (r : Review), r ∈ reviews → r.id = reviewId →
      applyUpdate p r ∈ updateReviewStatus reviews reviewId p ∧
        (applyUpdate p r).status = p.status) ∧
    (∀ (rows : List RatingRow) (ratingId : String) (action : String)
        (now : Timestamp) (row : RatingRow),
      handlerValidAction action = true → row ∈ rows → row.id = ratingId →
      ∃ updated, handlerTransition rows ratingId action now = some updated ∧
        handlerUpdateRow action now row ∈ updated ∧
        (handlerUpdateRow action now row).review_status =
          handlerNewStatus action) := by
  constructor
  · intro reviews reviewId p r hmem hid
    refine ⟨?_, rfl⟩
    have := List.mem_map_of_mem
      (fun x => if x.id == reviewId then applyUpdate p x else x) hmem
    simpa [updateReviewStatus, hid] using this
  · intro rows ratingId action now row hact hmem hid
    refine ⟨rows.map (fun r =>
      if r.id == ratingId then handlerUpdateRow action now r else r), ?_, ?_, rfl⟩
    · simp [handlerTransition, hact]
    · have := List.mem_map_of_mem
        (fun r => if r.id == ratingId then handlerUpdateRow action now r else r) hmem
      simpa [hid] using this

/-- C1 witness: the amended transition behaviour evaluated on the concrete
approved review and the concrete rejected rating row. -/
theorem c1_transition_unconditional_witness :
    (applyUpdate (dashboardPayload Status.rejected 200) approvedReview ∈
      updateReviewStatus [approvedReview] "r1" (dashboardPayload Status.rejected 200)) ∧
    (∃ updated, handlerTransition [rejectedRating] "g1" "approve" 300 = some updated ∧
      handlerUpdateRow "approve" 300 rejectedRating ∈ updated ∧
      (handlerUpdateRow "approve" 300 rejectedRating).review_status =
        handlerNewStatus "approve") := by
  constructor
  · exact (c1_transition_unconditional.1 [approvedReview] "r1"
      (dashboardPayload Status.rejected 200) approvedReview
      (List.mem_singleton.mpr rfl) rfl).1
  · exact c1_transition_unconditional.2 [rejectedRating] "g1" "approve" 300
      rejectedRating rfl (List.mem_singleton.mpr rfl) rfl

/-! ## C7 -/

/-- C7 counterexample: the claim requires every successful transition, target
approved or rejected alike, to set the moderation timestamp and the
moderating-admin reference.  Rejecting the pending review r0 through the
dashboard writes only the status: reviewed_at and approved_by stay null; and
even approving writes reviewed_at but never approved_by. -/
theorem c7_counterexample :
    (dashboardModerate [baseReview] "r0" Status.rejected 500).map
        (fun r => (r.status, r.reviewed_at, r.approved_by)) =
      [(Status.rejected, none, none)] ∧
    (dashboardModerate [baseReview] "r0" Status.approved 500).map
        (fun r => (r.status, r.reviewed_at, r.approved_by)) =
      [(Status.approved, some 500, none)] := by
  exact ⟨rfl, rfl⟩

/-- C7 amended: a successful dashboard approval sets the status and the
moderation timestamp (reviewed_at = now); a rejection sets only the status
and leaves the stored reviewed_at in place; neither path writes the
moderating-admin reference, whose stored value is untouched. -/
theorem c7_moderation_fields (reviews : List Review) (reviewId : String)
    (now : Timestamp) (r : Review) (hmem : r ∈ reviews) (hid : r.id = reviewId) :
    ({ r with status := Status.approved, reviewed_at := some now } ∈
        dashboardModerate reviews reviewId Status.approved now) ∧
    ({ r with status := Status.rejected } ∈
        dashboardModerate reviews reviewId Status.rejected now) := by
  constructor
  · have := List.mem_map_of_mem
      (fun x => if x.id == reviewId then
        applyUpdate (dashboardPayload Status.approved now) x else x) hmem
    simpa [dashboardModerate, updateReviewStatus, dashboardPayload,
      applyUpdate, hid] using this
  · have := List.mem_map_of_mem
      (fun x => if x.id == reviewId then
        applyUpdate (dashboardPayload Status.rejected now) x else x) hmem
    simpa [dashboardModerate, updateReviewStatus, dashboardPayload,
      applyUpdate, hid] using this

/-- C7 witness: the amended moderation behaviour evaluated on the concrete
pending review r0. -/
theorem c7_moderation_fields_witness :
    ({ baseReview with status := Status.approved, reviewed_at := some 500 } ∈
        dashboardModerate [baseReview] "r0" Status.approved 500) ∧
    ({ baseReview with status := Status.rejected } ∈
        dashboardModerate [baseReview] "r0" Status.rejected 500) := by
  exact ⟨(c7_moderation_fields [baseReview] "r0" 500 baseReview
      (List.mem_singleton.mpr rfl) rfl).1,
    (c7_moderation_fields [baseReview] "r0" 500 baseReview
      (List.mem_singleton.mpr rfl) rfl).2⟩

/-! ## C2 -/

/-- A public pending payload that carries an external-post reference. -/
def instagramPublicPayload : Review :=
  { baseReview with
    id := "r2"
    reviewer_name := some "sam"
    visit_date := some 100
    instagram_url := some "https://instagram.com/p/abc/"
    instagram_image_url := some "https://instagram.com/p/abc/media/" }

/-- A database holding the fountain f1 the payload references, and no
reviews yet. -/
def fountainOnlyDB : DB :=
  { cities := [], sources := [], fountains := [baseFountain], reviews := [] }

/-- C2 counterexample: the claim requires a create_public_review call whose
payload carries an external-post reference or media link to fail with
Forbidden and insert nothing.  Against a store holding the referenced
fountain f1, the anonymous insert of a pending public payload carrying both
instagram fields passes the foreign key, the check constraints and the
reviews_public_insert policy (which checks only status = pending and
author_type = public), and the row is stored. -/
theorem c2_counterexample :
    instagramPublicPayload.instagram_url ≠ none ∧
    instagramPublicPayload.instagram_image_url ≠ none ∧
    insertAllowed false instagramPublicPayload = true ∧
    insertReview fountainOnlyDB false instagramPublicPayload =
      some { fountainOnlyDB with reviews := [instagramPublicPayload] } := by
  refine ⟨by simp [instagramPublicPayload], by simp [instagramPublicPayload],
    rfl, rfl⟩

/-- C2 amended: the authorization boundary does not inspect the admin-only
fields: an anonymous insert is permitted exactly when the payload has status
pending and author kind public, whatever its external-post or media fields
hold; the public submission form itself never places the admin-only fields in
its payload, so they reach the store as nulls on that path. -/
theorem c2_public_insert_policy :
    (∀ (d : PublicReviewForm) (newId : String) (now : Timestamp),
      (submitReviewPayload d newId now).instagram_url = none ∧
      (submitReviewPayload d newId now).instagram_image_url = none ∧
      (submitReviewPayload d newId now).instagram_caption = none) ∧
    (∀ r : Review, insertAllowed false r = true ↔
      (r.status = Status.pending ∧ r.author_type = AuthorType.publicAuthor)) := by
  constructor
  · intro d newId now
    exact ⟨rfl, rfl, rfl⟩
  · intro r
    simp [insertAllowed]

/-! ## C3 -/

/-- A valid admin review form: every rating filled, an instagram url, and a
visit date one day after the epoch. -/
def adminFormSample : AdminReviewForm :=
  { instagramUrl := "https://instagram.com/p/abc/"
    instagramCaption := ""
    overallRating := some 9
    waterQuality := some 9
    flowPressure := some 9
    temperature := some 9
    drainage := some 9
    accessibility := some 9
    reviewNotes := ""
    visitDate := some 86400 }

/-- A payload with author kind admin and status pending; the admin insert
policy checks only is_admin, so it does not reject this row. -/
def adminPendingPayload : Review :=
  { baseReview with id := "r5", author_type := AuthorType.adminAuthor }

/-- C3 counterexample: the claim requires the moderation timestamp of an
admin-created review to equal the current time and the moderating-admin to
equal the admin identity.  Submitting the valid admin form at current time
1000000 stores reviewed_at = 129600 (noon of the visit date, not now) and
leaves approved_by null, the payload carrying no moderating-admin at all. -/
theorem c3_counterexample :
    validateAdminForm adminFormSample = none ∧
    (submitAdminReviewPayload "f1" adminFormSample "r3" 1000000).reviewed_at =
      some 129600 ∧
    (129600 : Nat) ≠ 1000000 ∧
    (submitAdminReviewPayload "f1" adminFormSample "r3" 1000000).approved_by =
      none := by
  refine ⟨rfl, rfl, by decide, rfl⟩

/-- C3 amended: an admin submission inserts author kind admin and status
approved atomically at creation, with the moderation timestamp set to noon of
the visit date when one is given (the current time only when it is not) and
no moderating-admin recorded; the admin insert policy admits the payload, but
that policy alone would also admit an admin-authored pending row. -/
theorem c3_admin_review_fields (fid : String) (d : AdminReviewForm)
    (newId : String) (now : Timestamp) :
    (submitAdminReviewPayload fid d newId now).author_type =
      AuthorType.adminAuthor ∧
    (submitAdminReviewPayload fid d newId now).status = Status.approved ∧
    (submitAdminReviewPayload fid d newId now).reviewed_at =
      some (match d.visitDate with
        | some dd => dd + noonOffset
        | none => now) ∧
    (submitAdminReviewPayload fid d newId now).approved_by = none ∧
    insertAllowed true (submitAdminReviewPayload fid d newId now) = true ∧
    insertAllowed true adminPendingPayload = true ∧
    adminPendingPayload.author_type = AuthorType.adminAuthor ∧
    adminPendingPayload.status = Status.pending := by
  exact ⟨rfl, rfl, rfl, rfl, by simp [insertAllowed], rfl, rfl, rfl⟩

/-! ## C4 -/

/-- A database with one fountain and no reviews yet. -/
def overviewDb1 : DB :=
  { cities := [], sources := [], fountains := [baseFountain], reviews := [] }

/-- An approved review that arrives between the two reads. -/
def freshApproved : Review :=
  { baseReview with id := "r4", status := Status.approved }

/-- The same database after the review was approved. -/
def overviewDb2 : DB := { overviewDb1 with reviews := [freshApproved] }

/-- C4 counterexample: the claim requires that no cached aggregate older than
the current read is ever served.  The map loader caches its first fetch: a
second fetchGeoData call made after the review set changed still reports the
cached approved count 0, while a fresh scan of the same state reports 1. -/
theorem c4_counterexample :
    ((fetchGeoData (fetchGeoData { geojson := none } overviewDb1).2
        overviewDb2).1).map (fun row => row.approved_review_count) = [0] ∧
    (fetchFountainOverview overviewDb2).map
      (fun row => row.approved_review_count) = [1] := by
  exact ⟨rfl, rfl⟩

/-- C4 amended: the aggregate views are pure functions of the store evaluated
at query time and are never independently persisted, so a first read scans
the current state; but the map client keeps the first fetched dataset in a
page-lifetime cache and serves it to every later read unchanged, whatever the
store holds by then. -/
theorem c4_overview_cache (db db2 : DB) :
    (fetchGeoData { geojson := none } db).1 =
      List.insertionSort nameLe (db.fountains.map (overviewRow db)) ∧
    (fetchGeoData (fetchGeoData { geojson := none } db).2 db2).1 =
      (fetchGeoData { geojson := none } db).1 := by
  exact ⟨rfl, rfl⟩

/-! ## C5 -/

/-- An approved review of fountain f1 carrying an overall rating. -/
def ratedReview (i : String) (q : ℚ) : Review :=
  { baseReview with id := i, status := Status.approved, rating := some q }

/-- Three approved ratings 1, 2, 2 whose mean 5/3 does not terminate in two
decimal places. -/
def ratingsFixture : List Review :=
  [ratedReview "a" 1, ratedReview "b" 2, ratedReview "c" 2]

/-- C5 counterexample: the claim requires the average to equal the arithmetic
mean of the overall ratings of the approved reviews.  Over approved ratings
1, 2, 2 the view reports 167/100 (the mean rounded to two decimal places)
while the arithmetic mean is 5/3, and the two differ. -/
theorem c5_counterexample :
    approvedRatings ratingsFixture "f1" = [1, 2, 2] ∧
    averageRating ratingsFixture "f1" = some (167/100) ∧
    ((approvedRatings ratingsFixture "f1").sum /
      ((approvedRatings ratingsFixture "f1").length : ℚ)) = 5/3 ∧
    (167/100 : ℚ) ≠ 5/3 := by
  have h : approvedRatings ratingsFixture "f1" = [1, 2, 2] := rfl
  refine ⟨h, ?_, ?_, by norm_num⟩
  · simp only [averageRating, h]
    norm_num [pgRound2]
  · rw [h]
    norm_num

/-- C5 amended: the average is the arithmetic mean of the non-null overall
ratings of the approved reviews of the fountain, rounded half away from zero
to two decimal places; it is null when no approved review carries a rating,
in particular whenever the approved set is empty, and so is never reported as
zero for an unrated fountain. -/
theorem c5_average_rounded_mean (reviews : List Review) (fid : String) :
    (averageRating reviews fid = none ↔ approvedRatings reviews fid = []) ∧
    (approvedRatings reviews fid ≠ [] →
      averageRating reviews fid =
        some (pgRound2 ((approvedRatings reviews fid).sum /
          ((approvedRatings reviews fid).length : ℚ)))) ∧
    (approvedFor reviews fid = [] → averageRating reviews fid = none) := by
  refine ⟨?_, ?_, ?_⟩
  · simp only [averageRating]
    cases h : approvedRatings reviews fid <;> simp [h]
  · intro hne
    simp only [averageRating]
    cases h : approvedRatings reviews fid with
    | nil => exact absurd h hne
    | cons a l => simp [h]
  · intro h
    simp [averageRating, approvedRatings, h]

/-- C5 witness: the amended average evaluated on the concrete ratings
fixture, and on a state with no approved review of the fountain. -/
theorem c5_average_rounded_mean_witness :
    averageRating ratingsFixture "f1" =
      some (pgRound2 ((approvedRatings ratingsFixture "f1").sum /
        ((approvedRatings ratingsFixture "f1").length : ℚ))) ∧
    averageRating [] "f1" = none := by
  constructor
  · exact (c5_average_rounded_mean ratingsFixture "f1").2.1 (by decide)
  · exact (c5_average_rounded_mean [] "f1").2.2 rfl

/-! ## C6 -/

/-- An approved review moderated at 100, created at 5. -/
def tieReviewOld : Review :=
  { baseReview with
    id := "t1"
    status := Status.approved
    reviewed_at := some 100
    created_at := 5 }

/-- An approved review also moderated at 100, created later, at 7. -/
def tieReviewNew : Review :=
  { baseReview with
    id := "t2"
    status := Status.approved
    reviewed_at := some 100
    created_at := 7 }

/-- Two approved reviews of f1 with equal sort keys. -/
def tieFixture : List Review := [tieReviewOld, tieReviewNew]

/-- C6 counterexample: the claim requires ties on the moderation key to be
broken in favor of the most recently created review.  The view orders the
lateral subquery by the single coalesce key, and both rows share the maximal
key 100 while differing in creation time, so both are possible results of the
limit-1 query: the earlier-created t1 may be returned just as well as t2, and
no tiebreak on creation exists in the ordering. -/
theorem c6_counterexample :
    latestKey tieReviewOld = latestKey tieReviewNew ∧
    tieReviewOld.created_at < tieReviewNew.created_at ∧
    latestCandidates tieFixture "f1" = [tieReviewOld, tieReviewNew] := by
  exact ⟨rfl, by decide, rfl⟩

/-- C6 amended: the latest-review aggregate returns an approved review of the
fountain whose coalesce(reviewed_at, visit_date, created_at) key is greatest
(the fallback chain of the claim holds), and exactly the approved rows with
maximal key are possible results; no ordering on creation time is applied, so
among tied rows the returned one is unspecified. -/
theorem c6_latest_key_maximal (reviews : List Review) (fid : String) :
    (∀ r ∈ latestCandidates reviews fid,
      r ∈ approvedFor reviews fid ∧
        ∀ s ∈ approvedFor reviews fid, latestKey s ≤ latestKey r) ∧
    (∀ r ∈ approvedFor reviews fid,
      (∀ s ∈ approvedFor reviews fid, latestKey s ≤ latestKey r) →
        r ∈ latestCandidates reviews fid) := by
  constructor
  · intro r hr
    simp only [latestCandidates] at hr
    have h := List.mem_filter.mp hr
    refine ⟨h.1, ?_⟩
    intro s hs
    have := List.all_eq_true.mp h.2 s hs
    simpa using this
  · intro r hr hmax
    simp only [latestCandidates]
    apply List.mem_filter.mpr
    refine ⟨hr, ?_⟩
    apply List.all_eq_true.mpr
    intro s hs
    simpa using hmax s hs

/-- C6 witness: the amended latest-review description evaluated at the
concrete tied fixture, on its later-created candidate. -/
theorem c6_latest_key_maximal_witness :
    tieReviewNew ∈ approvedFor tieFixture "f1" ∧
    ∀ s ∈ approvedFor tieFixture "f1", latestKey s ≤ latestKey tieReviewNew := by
  exact (c6_latest_key_maximal tieFixture "f1").1 tieReviewNew (by decide)

/-! ## C8 -/

/-- A complete public form whose visit date lies after the current date. -/
def futureForm : PublicReviewForm :=
  { fountainId := "ext1"
    supabaseFountainId := "f1"
    reviewerName := "sam"
    reviewerEmail := ""
    visitDate := some 2000
    overallRating := some 8
    waterQuality := none
    flowPressure := none
    temperature := none
    cleanliness := none
    accessibility := none
    additionalNotes := "" }

/-- The current date at submission time, before the form's visit date. -/
def todayStamp : DateVal := 1000

/-- C8 counterexample: the claim requires a submission whose visit date falls
after the current date to be rejected with ValidationFailed.  With today at
1000 and a visit date of 2000, the form passes validateForm, the built
payload passes every schema check constraint, and the insert policy admits
it: no future-date check exists anywhere on the path. -/
theorem c8_counterexample :
    validateForm (getFormData futureForm) = true ∧
    futureForm.visitDate = some 2000 ∧
    todayStamp < 2000 ∧
    checkConstraints
      (submitReviewPayload (getFormData futureForm) "r8" todayStamp) = true ∧
    insertAllowed false
      (submitReviewPayload (getFormData futureForm) "r8" todayStamp) = true := by
  exact ⟨by decide, rfl, by decide, by decide, rfl⟩

/-- C8 amended: a public submission is rejected when the fountain selection,
the reviewer name (empty after trimming), the visit date, or the overall
rating is missing; a supplied overall rating outside the declared bounds 0 to
10 makes the payload fail the schema check constraints while the payload
carries the rating unmodified (so out-of-range values are rejected, never
clamped); no check compares the visit date with the current date. -/
theorem c8_validation (raw : PublicReviewForm) :
    (trimString raw.reviewerName = "" → validateForm (getFormData raw) = false) ∧
    (raw.visitDate = none → validateForm (getFormData raw) = false) ∧
    (raw.overallRating = none → validateForm (getFormData raw) = false) ∧
    (∀ q : ℚ, raw.overallRating = some q → ¬(0 ≤ q ∧ q ≤ 10) →
      ∀ (newId : String) (now : Timestamp),
        checkConstraints (submitReviewPayload (getFormData raw) newId now) =
          false) ∧
    (∀ (newId : String) (now : Timestamp),
      (submitReviewPayload (getFormData raw) newId now).rating =
        raw.overallRating) := by
  refine ⟨?_, ?_, ?_, ?_, fun newId now => rfl⟩
  · intro h
    simp [validateForm, getFormData, h]
  · intro h
    simp [validateForm, getFormData, h]
  · intro h
    simp [validateForm, getFormData, h]
  · intro q hq hnotin newId now
    have hfalse : decide (0 ≤ q) = false ∨ decide (q ≤ 10) = false := by
      rcases not_and_or.mp hnotin with h | h <;> simp [h]
    rcases hfalse with h | h <;>
      simp [checkConstraints, submitReviewPayload, getFormData,
        ratingInBounds, hq, h]

/-- C8 witness: the amended validation behaviour evaluated on a form with a
whitespace-only reviewer name and on a form carrying the out-of-range
rating 12. -/
theorem c8_validation_witness :
    validateForm (getFormData { futureForm with reviewerName := " " }) = false ∧
    checkConstraints
      (submitReviewPayload
        (getFormData { futureForm with overallRating := some 12 }) "r9" 0) =
      false := by
  constructor
  · exact (c8_validation { futureForm with reviewerName := " " }).1 (by decide)
  · exact (c8_validation { futureForm with overallRating := some 12 }).2.2.2.1
      12 rfl (by norm_num) "r9" 0

/-! ## C9 -/

/-- A fountain whose operational status is closed; the schema records no
activity flag of any kind, this status being the nearest notion of an
inactive fountain. -/
def closedFountain : Fountain :=
  { baseFountain with
    id := "f2"
    name := "Beta"
    operational_status := OperationalStatus.closed }

/-- A database holding the closed fountain and the operational one. -/
def overviewDb3 : DB :=
  { cities := []
    sources := []
    fountains := [closedFountain, baseFountain]
    reviews := [] }

/-- C9 counterexample: the claim requires the overview to exclude fountains
whose activity flag is false.  The fountains table of the core schema has no
activity flag, and fountain_overview_view has no where clause: every stored
fountain yields a row, the closed fountain f2 included, so no fountain is
ever excluded on activity. -/
theorem c9_counterexample :
    (fetchFountainOverview overviewDb3).map (fun row => row.id) =
      ["f1", "f2"] ∧
    (fetchFountainOverview overviewDb3).length =
      overviewDb3.fountains.length ∧
    closedFountain.operational_status = OperationalStatus.closed := by
  refine ⟨?_, ?_, rfl⟩
  · simp [fetchFountainOverview, fountain_overview_view, overviewDb3,
      List.insertionSort, List.orderedInsert, overviewRow, nameLe,
      closedFountain, baseFountain]
    decide
  · simp [fetchFountainOverview, fountain_overview_view, overviewDb3,
      List.insertionSort, List.orderedInsert, overviewRow, nameLe,
      closedFountain, baseFountain]
    decide

/-- C9 amended: the overview exposes one row per stored fountain (no
filtering on activity occurs, the schema defining no activity flag), each
row combining the fountain's own columns with the aggregate columns computed
from the review set, and the sequence is sorted by fountain name. -/
theorem c9_overview_rows (db : DB) (f : Fountain) (hmem : f ∈ db.fountains) :
    List.Sorted nameLe (fetchFountainOverview db) ∧
    (fetchFountainOverview db).Perm (db.fountains.map (overviewRow db)) ∧
    overviewRow db f ∈ fetchFountainOverview db ∧
    (overviewRow db f).id = f.id ∧
    (overviewRow db f).name = f.name ∧
    (overviewRow db f).average_rating = averageRating db.reviews f.id ∧
    (overviewRow db f).approved_review_count =
      approvedReviewCount db.reviews f.id ∧
    (overviewRow db f).admin_review_count = adminReviewCount db.reviews f.id := by
  refine ⟨List.sorted_insertionSort nameLe _, List.perm_insertionSort nameLe _,
    ?_, rfl, rfl, rfl, rfl, rfl⟩
  exact (List.perm_insertionSort nameLe _).mem_iff.mpr
    (List.mem_map_of_mem (overviewRow db) hmem)

/-- C9 witness: the amended overview description evaluated on the concrete
two-fountain database, at the closed fountain. -/
theorem c9_overview_rows_witness :
    List.Sorted nameLe (fetchFountainOverview overviewDb3) ∧
    overviewRow overviewDb3 closedFountain ∈ fetchFountainOverview overviewDb3 := by
  have h := c9_overview_rows overviewDb3 closedFountain
    (List.mem_cons_self closedFountain [baseFountain])
  exact ⟨h.1, h.2.2.1⟩

end WaterFountains
